import Mathlib

/-!
Shallow embedding of the album model and authentication/session behaviour of
the icloud-photos-sync repository.

The album model is translated from
src/app/src/lib/photos-library/model/album.ts.  Strings are Lean strings,
the JavaScript object holding the asset mapping is modelled as an
association list from asset identifier to presented filename, and a
JavaScript value that may be null or undefined is modelled as an Option.
The recursive functions hasAncestor and distanceToRoot are embedded with an
explicit fuel parameter: a result of none means the recursion did not
finish within the given fuel, so divergence of the source recursion is
expressed as the result being none for every fuel value.
-/

/-- Potential album types, from the AlbumType enum of album.ts
(FOLDER = 3, ALBUM = 0, ARCHIVED = 99). -/
inductive AlbumType where
  | FOLDER
  | ALBUM
  | ARCHIVED
deriving DecidableEq, Repr

/-- The numeric code of each album type, as declared in the source enum. -/
def AlbumType.code : AlbumType → Nat
  | .FOLDER => 3
  | .ALBUM => 0
  | .ARCHIVED => 99

/-- The asset mapping of an album: the key is the asset filename identifier,
the value the filename presented to the user (type AlbumAssets in
album.ts).  A JavaScript object is modelled as an association list; a
JavaScript object has no duplicate keys, which is tracked as a Nodup
hypothesis where a theorem needs it. -/
abbrev AlbumAssets := List (String × String)

/-- The Album class of album.ts.  The assets field is an Option because the
source guards against the mapping being undefined at runtime. -/
structure Album where
  uuid : String
  albumType : AlbumType
  albumName : String
  assets : Option AlbumAssets
  parentAlbumUUID : String
deriving DecidableEq

/-- Album.getUUID from album.ts. -/
def Album.getUUID (a : Album) : String := a.uuid

/-- Character-level semantics of the JavaScript single-character
replaceAll call used by Album.getSanitizedFilename: every occurrence of
the character c in s is replaced by r. -/
def replaceAllChar (c r : Char) (s : String) : String :=
  String.mk (s.data.map (fun x => if x = c then r else x))

/-- Album.getSanitizedFilename from album.ts:
albumName.replaceAll of the path separator by an underscore. -/
def Album.getSanitizedFilename (a : Album) : String :=
  replaceAllChar '/' '_' a.albumName

/-- The list of asset identifiers of an asset mapping (Object.keys). -/
def assetMapKeys (assets : AlbumAssets) : List String :=
  assets.map Prod.fst

/-- Object.keys(x).sort() of the source: the keys of the mapping in
ascending order. -/
def sortedAssetKeys (assets : AlbumAssets) : List String :=
  List.insertionSort (fun a b => a ≤ b) (assetMapKeys assets)

/-- Album.assetsEqual from album.ts: an undefined mapping on either side is
replaced by the empty object, then the sorted key lists are compared (the
source compares their JSON serialisations, which coincide exactly when the
sorted key lists coincide). -/
def Album.assetsEqual (a : Album) (assets : Option AlbumAssets) : Bool :=
  let thisAssets := a.assets.getD []
  let otherAssets := assets.getD []
  sortedAssetKeys thisAssets == sortedAssetKeys otherAssets

/-- Album.equal from album.ts.  The argument is an Option because the
source first evaluates the truthiness of the argument: a null or undefined
album makes the conjunction falsy without any field access. -/
def Album.equal (a : Album) (album : Option Album) : Bool :=
  match album with
  | none => false
  | some b =>
    a.uuid == b.uuid
      && a.getSanitizedFilename == b.getSanitizedFilename
      && a.parentAlbumUUID == b.parentAlbumUUID
      && (decide (a.albumType = AlbumType.ARCHIVED)
          || decide (b.albumType = AlbumType.ARCHIVED)
          || (a.assetsEqual b.assets && decide (a.albumType = b.albumType)))

/-- Album.apply from album.ts: a falsy local entity is returned unchanged,
otherwise the local albumType is copied onto the remote entity. -/
def Album.apply (a : Album) (localEntity : Option Album) : Album :=
  match localEntity with
  | none => a
  | some l => { a with albumType := l.albumType }

/-- The fullQueue.find call shared by hasAncestor and distanceToRoot in
album.ts: the first album of the queue whose UUID is the parent UUID of
the given album. -/
def lookupParent (a : Album) (fullQueue : List Album) : Option Album :=
  fullQueue.find? (fun album => album.getUUID == a.parentAlbumUUID)

/-- Outcome of Album.distanceToRoot: either a distance, or the thrown
LIBRARY_ERR.NO_DISTANCE_TO_ROOT error. -/
inductive DistResult where
  | ok (d : Nat)
  | noDistanceToRoot
deriving DecidableEq, Repr

/-- Album.distanceToRoot from album.ts, with fuel: none means the recursion
did not finish within the fuel.  An empty parent UUID yields distance 0, a
found parent recurses adding one hop (a thrown error propagates), a missing
parent throws NO_DISTANCE_TO_ROOT. -/
def distanceToRootFuel : Nat → Album → List Album → Option DistResult
  | 0, _, _ => none
  | Nat.succ n, a, fullQueue =>
    if a.parentAlbumUUID = "" then
      some (DistResult.ok 0)
    else
      match lookupParent a fullQueue with
      | some parent =>
        match distanceToRootFuel n parent fullQueue with
        | some (DistResult.ok d) => some (DistResult.ok (d + 1))
        | some DistResult.noDistanceToRoot => some DistResult.noDistanceToRoot
        | none => none
      | none => some DistResult.noDistanceToRoot

/-- Album.hasAncestor from album.ts, with fuel: none means the recursion
did not finish within the fuel.  A root album has no ancestor, a potential
ancestor matching the parent UUID is confirmed, otherwise the found parent
is consulted recursively; a gap in the queue yields false. -/
def hasAncestorFuel : Nat → Album → Album → List Album → Option Bool
  | 0, _, _, _ => none
  | Nat.succ n, a, potentialAncestor, fullQueue =>
    if a.parentAlbumUUID = "" then
      some false
    else if potentialAncestor.getUUID = a.parentAlbumUUID then
      some true
    else
      match lookupParent a fullQueue with
      | some parent => hasAncestorFuel n parent potentialAncestor fullQueue
      | none => some false

/-- The step relation of the recursions of album.ts: p is the album the
recursion moves to from a within the queue. -/
def ParentRel (fullQueue : List Album) (p a : Album) : Prop :=
  a.parentAlbumUUID ≠ "" ∧ lookupParent a fullQueue = some p

/-- A resolvable ancestry chain from an album to a potential ancestor: the
witness that the source recursion can answer true. -/
inductive AncestryChain (fullQueue : List Album) (p : Album) : Album → Prop where
  | direct (a : Album) (h1 : a.parentAlbumUUID ≠ "")
      (h2 : p.getUUID = a.parentAlbumUUID) : AncestryChain fullQueue p a
  | step (a parent : Album) (h1 : a.parentAlbumUUID ≠ "")
      (h2 : lookupParent a fullQueue = some parent)
      (h3 : AncestryChain fullQueue p parent) : AncestryChain fullQueue p a

/-- Divergence of the distanceToRoot recursion on a given input: no amount
of fuel makes it finish. -/
def distanceDiverges (a : Album) (fullQueue : List Album) : Prop :=
  ∀ n, distanceToRootFuel n a fullQueue = none

/-- Divergence of the hasAncestor recursion on a given input: no amount of
fuel makes it finish. -/
def ancestorDiverges (a p : Album) (fullQueue : List Album) : Prop :=
  ∀ n, hasAncestorFuel n a p fullQueue = none

/-- MAX_RECORDS_LIMIT from the iCloud photos constants file: the maximum
record count requested from and returned by the backend per query. -/
def MAX_RECORDS_LIMIT : Nat := 198

/-- Outcome of the single HTTP request of the token endpoint, as observed
by getTokens: either a response with a status code and an optional
trust-token header, or a network error with no response. -/
inductive TokenHttpOutcome where
  | response (status : Nat) (trustTokenHeader : Option String)
  | networkError
deriving DecidableEq, Repr

/-- The durable state touched by getTokens: the content of the persisted
trust-token file. -/
structure TokenState where
  trustTokenFile : String
deriving DecidableEq, Repr

/-- Result of a getTokens call: the TRUSTED transition, or failure of the
readiness signal with TokenAcquisitionFailed. -/
inductive TokenResult where
  | trusted
  | tokenAcquisitionFailed
deriving DecidableEq, Repr

/-- Modelled from the spec: the iCloud class holding getTokens is not part
of the working set (only its test suite is).  Per the spec, getTokens
fetches a trust token via the session token; on a fully successful
response (status 200 carrying the trust-token header) it persists the
returned token to the trust-token file and transitions to TRUSTED; on a
bad status, a missing token header or a network error it fails with
TokenAcquisitionFailed and leaves the persisted file untouched. -/
def getTokens : TokenHttpOutcome → TokenState → TokenState × TokenResult
  | TokenHttpOutcome.networkError, st => (st, TokenResult.tokenAcquisitionFailed)
  | TokenHttpOutcome.response status header, st =>
    if status = 200 then
      match header with
      | some token => ({ trustTokenFile := token }, TokenResult.trusted)
      | none => (st, TokenResult.tokenAcquisitionFailed)
    else
      (st, TokenResult.tokenAcquisitionFailed)

/-- A session cookie as delivered by the account-setup endpoint, reduced to
the expiry timestamp that decides its validity. -/
structure Cookie where
  expiry : Int
deriving DecidableEq, Repr

/-- Outcome of the single HTTP request of the account-setup endpoint:
either a response carrying a status, the parsed set-cookie list and the
optional photo-service endpoint URL of the service map, or a network
error. -/
inductive SetupHttpOutcome where
  | response (status : Nat) (cookies : List Cookie) (photosUrl : Option String)
  | networkError
deriving DecidableEq, Repr

/-- Result of a setupAccount call: ACCOUNT_READY with stored cookies and
the photo-service URL (from which the photo-library component is
constructed), or failure with AccountSetupFailed. -/
inductive SetupResult where
  | accountReady (cookies : List Cookie) (photosUrl : String)
  | accountSetupFailed
deriving DecidableEq, Repr

/-- A cookie is valid at the given time when its expiry has not yet
elapsed. -/
def cookieValid (now : Int) (c : Cookie) : Bool :=
  decide (now < c.expiry)

/-- Modelled from the spec: the iCloud class holding setupAccount is not
part of the working set (only its test suite is).  Per the spec,
setupAccount requires a 200 response that carries the photo-service
endpoint URL and at least one non-expired cookie; a cookie set in which
every expiry has already elapsed is treated exactly like an empty cookie
set.  Any other response, and a network error, fail with
AccountSetupFailed. -/
def setupAccount (now : Int) : SetupHttpOutcome → SetupResult
  | SetupHttpOutcome.networkError => SetupResult.accountSetupFailed
  | SetupHttpOutcome.response status cookies photosUrl =>
    if status = 200 then
      match photosUrl with
      | some url =>
        if (cookies.filter (cookieValid now)).isEmpty then
          SetupResult.accountSetupFailed
        else
          SetupResult.accountReady cookies url
      | none => SetupResult.accountSetupFailed
    else
      SetupResult.accountSetupFailed

/-- Whether a setupAccount result constructs the photo-library component:
the component is constructed exactly on the ACCOUNT_READY transition. -/
def photosConstructed : SetupResult → Bool
  | SetupResult.accountReady _ _ => true
  | SetupResult.accountSetupFailed => false

/-- C7: getSanitizedFilename replaces every path separator of the album
name by an underscore, leaves every other character and the character
order unchanged (the result is exactly the character map of the name), and
the result never contains a path separator; the embedding is a pure
function of the album, so the stored albumName field is untouched. -/
theorem getSanitizedFilename_spec (a : Album) :
    (a.getSanitizedFilename).data
        = a.albumName.data.map (fun c => if c = '/' then '_' else c)
      ∧ ((a.getSanitizedFilename).data.all (fun c => c != '/')) = true
      ∧ (a.getSanitizedFilename).length = a.albumName.length := by
  refine ⟨rfl, ?_, ?_⟩
  · rw [List.all_eq_true]
    intro c hc
    have : c ∈ (a.albumName.data.map (fun c => if c = '/' then '_' else c)) := hc
    obtain ⟨y, _, rfl⟩ := List.mem_map.mp this
    by_cases hy : y = '/' <;> simp [hy]
  · show (a.albumName.data.map _).length = a.albumName.data.length
    exact List.length_map _ _

/-- C8: the maximum-records page-size constant equals 198, is strictly
below 200, and is divisible by both 2 (all-pictures pages of halves) and 3
(album-list pages of thirds), so the pages merge evenly. -/
theorem max_records_limit_spec :
    MAX_RECORDS_LIMIT = 198 ∧ MAX_RECORDS_LIMIT < 200
      ∧ MAX_RECORDS_LIMIT % 2 = 0 ∧ MAX_RECORDS_LIMIT % 3 = 0
      ∧ 2 * (MAX_RECORDS_LIMIT / 2) = MAX_RECORDS_LIMIT
      ∧ 3 * (MAX_RECORDS_LIMIT / 3) = MAX_RECORDS_LIMIT := by decide

/-- C9: apply copies only the albumType of the local entity onto the
remote album, leaving uuid, albumName, parentAlbumUUID and the asset
mapping untouched, and returns the remote album entirely unchanged when
the local entity is null or undefined. -/
theorem apply_spec (r l : Album) :
    (r.apply (some l)).albumType = l.albumType
      ∧ (r.apply (some l)).uuid = r.uuid
      ∧ (r.apply (some l)).albumName = r.albumName
      ∧ (r.apply (some l)).parentAlbumUUID = r.parentAlbumUUID
      ∧ (r.apply (some l)).assets = r.assets
      ∧ r.apply none = r :=
  ⟨rfl, rfl, rfl, rfl, rfl, rfl⟩

/-- C10: equal and assetsEqual are total at the public interface: equal of
a null or undefined album is falsy, and assetsEqual treats an undefined
mapping on either side as the empty mapping, so an undefined mapping and
an empty mapping compare as having equal assets. -/
theorem equal_total_spec (a : Album) (opt : Option AlbumAssets) :
    a.equal none = false
      ∧ Album.assetsEqual { a with assets := none } opt
          = Album.assetsEqual { a with assets := some [] } opt
      ∧ Album.assetsEqual a none = Album.assetsEqual a (some [])
      ∧ Album.assetsEqual { a with assets := none } (some []) = true :=
  ⟨rfl, rfl, rfl, rfl⟩

/-- C5: getTokens leaves the persisted trust-token file untouched on every
failing execution (non-success status, missing token header, or network
error), fails such executions with TokenAcquisitionFailed, and on a fully
successful response stores exactly the newly returned trust token. -/
theorem getTokens_spec (o : TokenHttpOutcome) (st : TokenState) :
    ((getTokens o st).2 = TokenResult.tokenAcquisitionFailed →
        (getTokens o st).1 = st)
      ∧ (∀ t, o = TokenHttpOutcome.response 200 (some t) →
          getTokens o st = (⟨t⟩, TokenResult.trusted))
      ∧ (o = TokenHttpOutcome.networkError →
          getTokens o st = (st, TokenResult.tokenAcquisitionFailed))
      ∧ (∀ status header, o = TokenHttpOutcome.response status header →
          status ≠ 200 →
          getTokens o st = (st, TokenResult.tokenAcquisitionFailed)) := by
  cases o with
  | networkError =>
    refine ⟨fun _ => rfl, ?_, fun _ => rfl, ?_⟩
    · intro t ht
      exact absurd ht (by simp)
    · intro status header ht
      exact absurd ht (by simp)
  | response status header =>
    refine ⟨?_, ?_, ?_, ?_⟩
    · intro hfail
      by_cases hs : status = 200
      · cases header with
        | none => simp [getTokens, hs]
        | some t => simp [getTokens, hs] at hfail
      · simp [getTokens, hs]
    · intro t ht
      rw [ht]
      simp [getTokens]
    · intro ht
      exact absurd ht (by simp)
    · intro status2 header2 ht hs
      injection ht with h1 h2
      subst h1
      subst h2
      simp [getTokens, hs]

/-- C5 witness: a 500 response leaves the stored token in place and fails,
while a successful 200 response with a token header overwrites the file
with exactly the new token. -/
theorem getTokens_spec_witness :
    getTokens (TokenHttpOutcome.response 500 none) ⟨"oldToken"⟩
        = (⟨"oldToken"⟩, TokenResult.tokenAcquisitionFailed)
      ∧ getTokens (TokenHttpOutcome.response 200 (some "newToken")) ⟨"oldToken"⟩
        = (⟨"newToken"⟩, TokenResult.trusted) :=
  ⟨(getTokens_spec (TokenHttpOutcome.response 500 none) ⟨"oldToken"⟩).2.2.2
      500 none rfl (by decide),
    (getTokens_spec (TokenHttpOutcome.response 200 (some "newToken"))
      ⟨"oldToken"⟩).2.1 "newToken" rfl⟩

/-- C6: a setupAccount response in which every cookie has already expired
behaves exactly like a response with zero cookies: the operation fails
with AccountSetupFailed and no photo-library component is constructed. -/
theorem setupAccount_expired_cookies_spec (now : Int) (status : Nat)
    (cookies : List Cookie) (photosUrl : Option String)
    (h : ∀ c ∈ cookies, c.expiry ≤ now) :
    setupAccount now (SetupHttpOutcome.response status cookies photosUrl)
        = setupAccount now (SetupHttpOutcome.response status [] photosUrl)
      ∧ setupAccount now (SetupHttpOutcome.response status cookies photosUrl)
        = SetupResult.accountSetupFailed
      ∧ photosConstructed
          (setupAccount now (SetupHttpOutcome.response status cookies photosUrl))
        = false := by
  have hfil : cookies.filter (cookieValid now) = [] := by
    rw [List.filter_eq_nil_iff]
    intro c hc
    simp only [cookieValid, decide_eq_true_eq]
    exact not_lt.mpr (h c hc)
  by_cases hs : status = 200
  · cases photosUrl with
    | none => exact ⟨by simp [setupAccount, hs], by simp [setupAccount, hs],
        by simp [setupAccount, hs, photosConstructed]⟩
    | some url => exact ⟨by simp [setupAccount, hs, hfil],
        by simp [setupAccount, hs, hfil],
        by simp [setupAccount, hs, hfil, photosConstructed]⟩
  · exact ⟨by simp [setupAccount, hs], by simp [setupAccount, hs],
      by simp [setupAccount, hs, photosConstructed]⟩

/-- C6 witness: a 200 response with the photo-service URL whose two
cookies both expired before the current time fails with
AccountSetupFailed. -/
theorem setupAccount_expired_cookies_witness :
    setupAccount 1000
        (SetupHttpOutcome.response 200 [⟨500⟩, ⟨999⟩] (some "ckdatabasews"))
      = SetupResult.accountSetupFailed :=
  (setupAccount_expired_cookies_spec 1000 200 [⟨500⟩, ⟨999⟩]
    (some "ckdatabasews") (by decide)).2.1

/-- Sorting the keys is invariant under permutation of the asset mapping:
the sorted key list only depends on the multiset of entries. -/
lemma sortedAssetKeys_congr {l₁ l₂ : AlbumAssets} (h : List.Perm l₁ l₂) :
    sortedAssetKeys l₁ = sortedAssetKeys l₂ := by
  refine List.eq_of_perm_of_sorted ?_ (List.sorted_insertionSort _ _)
    (List.sorted_insertionSort _ _)
  exact (List.perm_insertionSort _ _).trans
    ((h.map Prod.fst).trans (List.perm_insertionSort _ _).symm)

/-- The sorted key lists of two asset mappings coincide exactly when the
key lists are permutations of one another. -/
lemma sortedAssetKeys_eq_iff (l₁ l₂ : AlbumAssets) :
    sortedAssetKeys l₁ = sortedAssetKeys l₂
      ↔ List.Perm (assetMapKeys l₁) (assetMapKeys l₂) := by
  constructor
  · intro h
    have h₁ : List.Perm (assetMapKeys l₁) (sortedAssetKeys l₁) :=
      (List.perm_insertionSort _ _).symm
    rw [h] at h₁
    exact h₁.trans (List.perm_insertionSort _ _)
  · intro h
    exact List.eq_of_perm_of_sorted
      ((List.perm_insertionSort _ _).trans
        (h.trans (List.perm_insertionSort _ _).symm))
      (List.sorted_insertionSort _ _) (List.sorted_insertionSort _ _)

/-- assetsEqual holds exactly when the key lists of the two mappings (an
undefined mapping counting as empty) are permutations of one another. -/
lemma assetsEqual_iff_perm (a : Album) (other : Option AlbumAssets) :
    a.assetsEqual other = true
      ↔ List.Perm (assetMapKeys (a.assets.getD []))
          (assetMapKeys (other.getD [])) := by
  show (sortedAssetKeys (a.assets.getD []) == sortedAssetKeys (other.getD []))
      = true ↔ _
  rw [beq_iff_eq]
  exact sortedAssetKeys_eq_iff _ _

/-- C1: equal holds exactly when the uuids, the sanitized filenames and
the parent UUIDs coincide and either at least one side is ARCHIVED (type
and assets then being ignored) or the album types coincide and the sets of
asset identifiers coincide; moreover the insertion order of the asset
mappings never affects the result.  The Nodup hypotheses record that a
JavaScript object holds each key at most once. -/
theorem album_equal_spec (a b : Album)
    (ha : (assetMapKeys (a.assets.getD [])).Nodup)
    (hb : (assetMapKeys (b.assets.getD [])).Nodup) :
    (a.equal (some b) = true ↔
      (a.uuid = b.uuid ∧ a.getSanitizedFilename = b.getSanitizedFilename
        ∧ a.parentAlbumUUID = b.parentAlbumUUID
        ∧ (a.albumType = AlbumType.ARCHIVED ∨ b.albumType = AlbumType.ARCHIVED
            ∨ (a.albumType = b.albumType
                ∧ (assetMapKeys (a.assets.getD [])).toFinset
                    = (assetMapKeys (b.assets.getD [])).toFinset))))
      ∧ (∀ l₁ l₂, List.Perm (a.assets.getD []) l₁ →
          List.Perm (b.assets.getD []) l₂ →
          Album.equal { a with assets := some l₁ }
              (some { b with assets := some l₂ })
            = a.equal (some b)) := by
  constructor
  · have hassets : a.assetsEqual b.assets = true ↔
        (assetMapKeys (a.assets.getD [])).toFinset
          = (assetMapKeys (b.assets.getD [])).toFinset := by
      rw [assetsEqual_iff_perm]
      constructor
      · intro h
        exact List.toFinset_eq_of_perm _ _ h
      · intro h
        exact List.perm_of_nodup_nodup_toFinset_eq ha hb h
    simp only [Album.equal, Bool.and_eq_true, Bool.or_eq_true, beq_iff_eq,
      decide_eq_true_eq, hassets]
    tauto
  · intro l₁ l₂ h₁ h₂
    have key : Album.assetsEqual { a with assets := some l₁ } (some l₂)
        = a.assetsEqual b.assets := by
      show (sortedAssetKeys l₁ == sortedAssetKeys l₂)
          = (sortedAssetKeys (a.assets.getD [])
              == sortedAssetKeys (b.assets.getD []))
      rw [sortedAssetKeys_congr h₁, sortedAssetKeys_congr h₂]
    show (_ && _ && _ && (_ || _ || (Album.assetsEqual { a with assets := some l₁ } (some l₂) && _)))
        = (_ && _ && _ && (_ || _ || (a.assetsEqual b.assets && _)))
    rw [key]
    rfl

/-- Concrete pair of albums for the C1 witness: identical identifiers,
names and parents, the same two asset identifiers inserted in opposite
order with different presented filenames. -/
def demoAlbumA : Album :=
  ⟨"uuid-1", AlbumType.ALBUM, "my/album",
    some [("asset1", "file1"), ("asset2", "file2")], "parent-1"⟩

/-- Counterpart of demoAlbumA with the asset entries in reversed insertion
order. -/
def demoAlbumB : Album :=
  ⟨"uuid-1", AlbumType.ALBUM, "my/album",
    some [("asset2", "other2"), ("asset1", "other1")], "parent-1"⟩

/-- C1 witness: two concrete albums agreeing on uuid, name, parent, type
and asset-identifier set, with opposite asset insertion order, are equal. -/
theorem album_equal_spec_witness : Album.equal demoAlbumA (some demoAlbumB) = true :=
  (album_equal_spec demoAlbumA demoAlbumB (by decide) (by decide)).1.mpr
    (by refine ⟨rfl, rfl, rfl, Or.inr (Or.inr ⟨rfl, ?_⟩)⟩; decide)

/-- C2: distanceToRoot of an album with an empty parent UUID is 0; when
the queue holds the parent, the distance is the distance of that parent
plus one; and when the parent UUID is non-empty but no album of the queue
carries it, the NoDistanceToRoot error is thrown.  Stated on the fuel
embedding: each recursive unfolding consumes one unit of fuel. -/
theorem distanceToRoot_spec (a : Album) (fullQueue : List Album) (n : Nat) :
    (a.parentAlbumUUID = "" →
        distanceToRootFuel (n + 1) a fullQueue = some (DistResult.ok 0))
      ∧ (∀ p, a.parentAlbumUUID ≠ "" → lookupParent a fullQueue = some p →
          ∀ d, distanceToRootFuel n p fullQueue = some (DistResult.ok d) →
            distanceToRootFuel (n + 1) a fullQueue
              = some (DistResult.ok (d + 1)))
      ∧ (a.parentAlbumUUID ≠ "" → lookupParent a fullQueue = none →
          distanceToRootFuel (n + 1) a fullQueue
            = some DistResult.noDistanceToRoot) := by
  refine ⟨?_, ?_, ?_⟩
  · intro h
    simp [distanceToRootFuel, h]
  · intro p h hlp d hd
    simp [distanceToRootFuel, h, hlp, hd]
  · intro h hlp
    simp [distanceToRootFuel, h, hlp]

/-- Root album of the concrete working set used as witness input. -/
def demoRoot : Album :=
  ⟨"root-uuid", AlbumType.FOLDER, "root", some [], ""⟩

/-- Child album of demoRoot within the concrete working set. -/
def demoChild : Album :=
  ⟨"child-uuid", AlbumType.ALBUM, "child", some [], "root-uuid"⟩

/-- Album whose parent UUID matches nothing in the concrete working set. -/
def demoOrphan : Album :=
  ⟨"orphan-uuid", AlbumType.ALBUM, "orphan", some [], "missing-uuid"⟩

/-- The concrete working set used as witness input. -/
def demoQueue : List Album := [demoRoot, demoChild]

/-- C2 witness: in the concrete working set, the root resolves to distance
0, its child to distance 1, and the orphan raises NoDistanceToRoot. -/
theorem distanceToRoot_spec_witness :
    distanceToRootFuel 1 demoRoot demoQueue = some (DistResult.ok 0)
      ∧ distanceToRootFuel 2 demoChild demoQueue = some (DistResult.ok 1)
      ∧ distanceToRootFuel 1 demoOrphan demoQueue
        = some DistResult.noDistanceToRoot :=
  ⟨(distanceToRoot_spec demoRoot demoQueue 0).1 rfl,
    (distanceToRoot_spec demoChild demoQueue 1).2.1 demoRoot (by decide)
      rfl 0 ((distanceToRoot_spec demoRoot demoQueue 0).1 rfl),
    (distanceToRoot_spec demoOrphan demoQueue 0).2.2 (by decide) rfl⟩

/-- A true answer of the hasAncestor recursion always comes with a fully
resolvable ancestry chain through the queue: the recursion never answers
true across a broken link. -/
lemma hasAncestorFuel_true_chain :
    ∀ (m : Nat) (a p : Album) (fullQueue : List Album),
      hasAncestorFuel m a p fullQueue = some true →
      AncestryChain fullQueue p a := by
  intro m
  induction m with
  | zero =>
    intro a p q h
    exact absurd h (by simp [hasAncestorFuel])
  | succ n ih =>
    intro a p q h
    by_cases h1 : a.parentAlbumUUID = ""
    · simp [hasAncestorFuel, h1] at h
    · by_cases h2 : p.getUUID = a.parentAlbumUUID
      · exact AncestryChain.direct a h1 h2
      · cases hlp : lookupParent a q with
        | none => simp [hasAncestorFuel, h1, h2, hlp] at h
        | some parent =>
          have hrec : hasAncestorFuel n parent p q = some true := by
            simpa [hasAncestorFuel, h1, h2, hlp] using h
          exact AncestryChain.step a parent h1 hlp (ih parent p q hrec)

/-- C4: hasAncestor answers false on a root album, true when the potential
ancestor's UUID is the parent UUID, false when the chain hits a parent
UUID with no matching album in the queue, and every true answer is backed
by an ancestry chain fully resolvable in the queue, so a broken link is
never reported as ancestry.  Stated on the fuel embedding. -/
theorem hasAncestor_spec (a p : Album) (fullQueue : List Album) (n : Nat) :
    (a.parentAlbumUUID = "" →
        hasAncestorFuel (n + 1) a p fullQueue = some false)
      ∧ (a.parentAlbumUUID ≠ "" → p.getUUID = a.parentAlbumUUID →
          hasAncestorFuel (n + 1) a p fullQueue = some true)
      ∧ (a.parentAlbumUUID ≠ "" → p.getUUID ≠ a.parentAlbumUUID →
          lookupParent a fullQueue = none →
          hasAncestorFuel (n + 1) a p fullQueue = some false)
      ∧ (∀ m, hasAncestorFuel m a p fullQueue = some true →
          AncestryChain fullQueue p a) := by
  refine ⟨?_, ?_, ?_, ?_⟩
  · intro h
    simp [hasAncestorFuel, h]
  · intro h1 h2
    simp [hasAncestorFuel, h1, h2]
  · intro h1 h2 hlp
    simp [hasAncestorFuel, h1, h2, hlp]
  · intro m hm
    exact hasAncestorFuel_true_chain m a p fullQueue hm

/-- C4 witness: in the concrete working set, the root reports no ancestor,
the child reports the root as ancestor, and the orphan with its broken
link reports false. -/
theorem hasAncestor_spec_witness :
    hasAncestorFuel 1 demoRoot demoChild demoQueue = some false
      ∧ hasAncestorFuel 1 demoChild demoRoot demoQueue = some true
      ∧ hasAncestorFuel 1 demoOrphan demoRoot demoQueue = some false :=
  ⟨(hasAncestor_spec demoRoot demoChild demoQueue 0).1 rfl,
    (hasAncestor_spec demoChild demoRoot demoQueue 0).2.1 (by decide) rfl,
    (hasAncestor_spec demoOrphan demoRoot demoQueue 0).2.2.1 (by decide)
      (by decide) rfl⟩

/-- C3 (amended): whenever the album is accessible along the parent-lookup
step relation of the queue (the parent chain is acyclic: it reaches the
root or a gap in finitely many steps), both recursions terminate, i.e.
some fuel suffices.  The source carries no visited set, so this
accessibility hypothesis cannot be dropped. -/
theorem recursion_terminates_on_acyclic (fullQueue : List Album)
    (a p : Album) (h : Acc (ParentRel fullQueue) a) :
    (∃ n, (distanceToRootFuel n a fullQueue).isSome = true)
      ∧ (∃ n, (hasAncestorFuel n a p fullQueue).isSome = true) := by
  induction h with
  | intro x hx ih =>
    by_cases h1 : x.parentAlbumUUID = ""
    · exact ⟨⟨1, by simp [distanceToRootFuel, h1]⟩,
        ⟨1, by simp [hasAncestorFuel, h1]⟩⟩
    · cases hlp : lookupParent x fullQueue with
      | none =>
        refine ⟨⟨1, ?_⟩, ⟨1, ?_⟩⟩
        · simp [distanceToRootFuel, h1, hlp]
        · by_cases h2 : p.getUUID = x.parentAlbumUUID <;>
            simp [hasAncestorFuel, h1, h2, hlp]
      | some parent =>
        obtain ⟨⟨n1, hd⟩, ⟨n2, hh⟩⟩ := ih parent ⟨h1, hlp⟩
        refine ⟨⟨n1 + 1, ?_⟩, ⟨n2 + 1, ?_⟩⟩
        · cases hres : distanceToRootFuel n1 parent fullQueue with
          | none => rw [hres] at hd; simp at hd
          | some r => cases r <;> simp [distanceToRootFuel, h1, hlp, hres]
        · by_cases h2 : p.getUUID = x.parentAlbumUUID
          · simp [hasAncestorFuel, h1, h2]
          · simpa [hasAncestorFuel, h1, h2, hlp] using hh

/-- C3 witness: the child of the two-album working set is accessible along
the parent-lookup relation, so both recursions terminate on it. -/
theorem recursion_terminates_witness :
    (∃ n, (distanceToRootFuel n demoChild demoQueue).isSome = true)
      ∧ (∃ n, (hasAncestorFuel n demoChild demoRoot demoQueue).isSome = true) :=
  recursion_terminates_on_acyclic demoQueue demoChild demoRoot
    (by
      have accRoot : Acc (ParentRel demoQueue) demoRoot :=
        Acc.intro _ (fun _ hy => absurd rfl hy.1)
      refine Acc.intro _ (fun y hy => ?_)
      have h3 : (some demoRoot : Option Album) = some y := by
        rw [← hy.2]
        rfl
      injection h3 with h4
      exact h4 ▸ accRoot)

/-- First member of the two-album parent cycle: its parent is the second
member. -/
def cycleAlbumX : Album :=
  ⟨"x-uuid", AlbumType.FOLDER, "x", some [], "y-uuid"⟩

/-- Second member of the two-album parent cycle: its parent is the first
member. -/
def cycleAlbumY : Album :=
  ⟨"y-uuid", AlbumType.FOLDER, "y", some [], "x-uuid"⟩

/-- A working set whose parent links form a cycle between its two
members. -/
def cycleQueue : List Album := [cycleAlbumX, cycleAlbumY]

/-- A potential ancestor outside the cycle, probed by hasAncestor. -/
def cycleProbe : Album :=
  ⟨"z-uuid", AlbumType.ALBUM, "z", some [], ""⟩

/-- On the two-album cycle, no fuel ever makes either recursion finish:
each unfolding of either function on either member only consumes fuel. -/
lemma cycle_diverges_aux (n : Nat) :
    distanceToRootFuel n cycleAlbumX cycleQueue = none
      ∧ distanceToRootFuel n cycleAlbumY cycleQueue = none
      ∧ hasAncestorFuel n cycleAlbumX cycleProbe cycleQueue = none
      ∧ hasAncestorFuel n cycleAlbumY cycleProbe cycleQueue = none := by
  induction n with
  | zero => exact ⟨rfl, rfl, rfl, rfl⟩
  | succ n ih =>
    obtain ⟨h1, h2, h3, h4⟩ := ih
    have hneX : cycleAlbumX.parentAlbumUUID ≠ "" := by decide
    have hneY : cycleAlbumY.parentAlbumUUID ≠ "" := by decide
    have hlpX : lookupParent cycleAlbumX cycleQueue = some cycleAlbumY := by
      decide
    have hlpY : lookupParent cycleAlbumY cycleQueue = some cycleAlbumX := by
      decide
    have hprX : cycleProbe.getUUID ≠ cycleAlbumX.parentAlbumUUID := by decide
    have hprY : cycleProbe.getUUID ≠ cycleAlbumY.parentAlbumUUID := by decide
    refine ⟨?_, ?_, ?_, ?_⟩
    · simp [distanceToRootFuel, hneX, hlpX, h2]
    · simp [distanceToRootFuel, hneY, hlpY, h1]
    · simpa [hasAncestorFuel, hneX, hprX, hlpX] using h4
    · simpa [hasAncestorFuel, hneY, hprY, hlpY] using h3

/-- C3 counterexample: the claim fails as stated.  On the concrete working
set whose two albums form a parent cycle, the source recursions (which
carry no visited set) never terminate: the fuel embedding returns none for
every fuel value, both for distanceToRoot and for hasAncestor. -/
theorem recursion_cycle_counterexample :
    distanceDiverges cycleAlbumX cycleQueue
      ∧ ancestorDiverges cycleAlbumX cycleProbe cycleQueue :=
  ⟨fun n => (cycle_diverges_aux n).1, fun n => (cycle_diverges_aux n).2.2.1⟩
